import Mathlib

/-!
Shallow embedding in Lean 4 of the polling/reconnection coordinator of the
SOMweb Home Assistant integration (`custom_components/somweb/coordinator.py`).

The external session client (pysomweb) is out of scope: every `await` on a
client method is modelled by an oracle field of type `Except Unit α` — `.ok v`
means the call returned `v`, `.error ()` means the call raised.  The
coordinator functions are translated call site by call site and additionally
return the list of client calls they performed (`CallEv`), so that statements
such as "authenticate is never called" or "exactly one retry" are expressible
as properties of the call log.  `DataUpdateCoordinator.async_refresh` (Home
Assistant framework) catches all update errors internally and never raises,
so the forced refresh is modelled as an event with no failure outcome.
-/

deriving instance DecidableEq for Except

namespace Somweb

/-- Door status enumeration (pysomweb `DoorStatusType` as used by this
component: cover.py and coordinator.py use exactly OPEN, CLOSED, UNKNOWN). -/
inductive DoorStatusType
  | OPEN
  | CLOSED
  | UNKNOWN
deriving DecidableEq, Repr, BEq

/-- Door action enumeration (pysomweb `DoorActionType`). -/
inductive DoorActionType
  | OPEN
  | CLOSE
deriving DecidableEq, Repr, BEq

/-- Static door descriptor (pysomweb `Door`): integer id and display name. -/
structure Door where
  id : Int
  name : String
deriving DecidableEq, Repr

/-- Device information snapshot (pysomweb `DeviceInfo`), per spec §3: firmware
version, identifier, wifi signal quality/level, IP, timezone, remote access
flag.  Treated as a plain value by the coordinator (stored and replaced
wholesale, never inspected). -/
structure DeviceInfo where
  firmware_version : String
  device_id : String
  wifi_signal_quality : Nat
  wifi_signal_level : Int
  ip_address : String
  timezone : String
  remote_access_enabled : Bool
deriving DecidableEq, Repr

/-- `SomwebData` (coordinator.py lines 28-34): the published snapshot.  The
Python `dict[int, DoorStatusType]` is modelled as an association list built in
door-list order; lookup is `lookup_status`. -/
structure SomwebData where
  device_info : Option DeviceInfo
  doors : List (Int × DoorStatusType)
  firmware_update_available : Bool
deriving DecidableEq, Repr

/-- Coordinator-held mutable state (`__init__`, coordinator.py lines 52-56):
door list, cached device info, cached firmware flag, last firmware check
timestamp.  Timestamps are integers (seconds); `datetime` subtraction is
integer subtraction. -/
structure CoordState where
  doors : List Door
  device_info : Option DeviceInfo
  firmware_update_available : Bool
  last_firmware_check : Option Int
deriving DecidableEq, Repr

/-- Modelled from the spec: `FIRMWARE_CHECK_HOURS` is imported by
coordinator.py from const.py but is not defined in the provided const.py; the
spec (§4.1) gives the firmware-check interval as "e.g., 12 hours". -/
def FIRMWARE_CHECK_HOURS : Int := 12

/-- `timedelta(hours=FIRMWARE_CHECK_HOURS)` expressed in seconds, the time
unit of this embedding. -/
def firmware_check_interval : Int := FIRMWARE_CHECK_HOURS * 3600

/-- `_should_check_firmware` (coordinator.py lines 113-119): true when no
check ever succeeded, or when the elapsed time since the last successful
check is at least the firmware-check interval. -/
def should_check_firmware (now : Int) (s : CoordState) : Bool :=
  match s.last_firmware_check with
  | none => true
  | some t => decide (firmware_check_interval ≤ now - t)

/-- One client call, recorded in the call log of each coordinator operation. -/
inductive CallEv
  | is_alive
  | authenticate
  | get_door_status (id : Int)
  | door_action (id : Int) (action : DoorActionType)
  | wait_for_door_state (id : Int) (target : DoorStatusType)
  | get_device_info
  | update_available
  | refresh
deriving DecidableEq, Repr, BEq

/-- Oracle for one execution of `_async_reconnect`: the results of its
`async_is_alive` and `async_authenticate` calls.  `auth = .ok b` stands for
an `AuthResult` whose `success` field is `b`; `.error ()` means the call
raised. -/
structure ReconnectOracle where
  alive : Except Unit Bool
  auth : Except Unit Bool

/-- `_async_reconnect` (coordinator.py lines 134-158): if `is_alive` is false,
return false without authenticating; if alive, authenticate and return its
success flag; any exception in either call is caught and yields false. -/
def async_reconnect (o : ReconnectOracle) : Bool × List CallEv :=
  match o.alive with
  | .error _ => (false, [CallEv.is_alive])
  | .ok false => (false, [CallEv.is_alive])
  | .ok true =>
    match o.auth with
    | .error _ => (false, [CallEv.is_alive, CallEv.authenticate])
    | .ok s => (s, [CallEv.is_alive, CallEv.authenticate])

/-- Oracle for one `_async_update_firmware_info` execution: results of
`async_get_device_info` and `async_update_available`. -/
structure FirmwareOracle where
  dev_info : Except Unit DeviceInfo
  upd_avail : Except Unit Bool

/-- `_async_update_firmware_info` (coordinator.py lines 121-132).  Mirrors the
statement order of the source: `self._device_info` is assigned as soon as
`async_get_device_info` returns, so a subsequent failure of
`async_update_available` leaves the new device info in place while the flag
and the timestamp keep their old values; every exception is swallowed. -/
def async_update_firmware_info (fo : FirmwareOracle) (now : Int) (s : CoordState) :
    CoordState × List CallEv :=
  match fo.dev_info with
  | .error _ => (s, [CallEv.get_device_info])
  | .ok di =>
    match fo.upd_avail with
    | .error _ =>
      ({ s with device_info := some di },
       [CallEv.get_device_info, CallEv.update_available])
    | .ok b =>
      ({ s with device_info := some di,
                firmware_update_available := b,
                last_firmware_check := some now },
       [CallEv.get_device_info, CallEv.update_available])

/-- Oracle for one `_async_update_data` execution: the outer `async_is_alive`
call, the calls of the embedded reconnection attempt, one
`async_get_door_status` result per door id, and the firmware refresh calls. -/
structure CycleOracle where
  alive : Except Unit Bool
  reconnect_calls : ReconnectOracle
  door_status : Int → Except Unit DoorStatusType
  fw : FirmwareOracle

/-- The status recorded for a door id by the per-door loop of
`_async_update_data` (lines 82-96): the queried status, or UNKNOWN when the
query raised. -/
def queried_status (o : CycleOracle) (id : Int) : DoorStatusType :=
  match o.door_status id with
  | .ok s => s
  | .error _ => DoorStatusType.UNKNOWN

/-- The per-door loop of `_async_update_data` (coordinator.py lines 81-96):
each door is queried independently; a failure is caught and recorded as
UNKNOWN for that door only. -/
def poll_door_statuses (o : CycleOracle) : List Door → List (Int × DoorStatusType) × List CallEv
  | [] => ([], [])
  | d :: rest =>
    let tl := poll_door_statuses o rest
    ((d.id, queried_status o d.id) :: tl.1, CallEv.get_door_status d.id :: tl.2)

/-- Lookup in the door-status association list (models `dict` access; the
value stored for an id is a function of the id alone, so the first match is
the dict value). -/
def lookup_status : List (Int × DoorStatusType) → Int → Option DoorStatusType
  | [], _ => none
  | p :: rest, id => if p.1 = id then some p.2 else lookup_status rest id

/-- Body of `_async_update_data` after liveness is established (coordinator.py
lines 80-106): poll all doors, run the throttled firmware refresh when the
client is admin and the check is due, and build the `SomwebData` snapshot from
the fresh statuses and the currently held firmware values.  No failure can
escape this part: door failures and firmware failures are caught locally. -/
def update_data_rest (o : CycleOracle) (is_admin : Bool) (now : Int) (s : CoordState) :
    SomwebData × CoordState × List CallEv :=
  let polled := poll_door_statuses o s.doors
  let fw :=
    if is_admin && should_check_firmware now s then
      async_update_firmware_info o.fw now s
    else (s, [])
  ({ device_info := fw.1.device_info,
     doors := polled.1,
     firmware_update_available := fw.1.firmware_update_available },
   fw.1, polled.2 ++ fw.2)

/-- `_async_update_data` (coordinator.py lines 71-111).  `.error ()` models
raising `UpdateFailed` (both the explicit raise at line 78 and the wrapping of
an unexpected exception at line 111).  The coordinator state is returned
explicitly; on the failing paths no mutation has happened, so the input state
is returned unchanged. -/
def async_update_data (o : CycleOracle) (is_admin : Bool) (now : Int) (s : CoordState) :
    Except Unit SomwebData × CoordState × List CallEv :=
  match o.alive with
  | .error _ => (.error (), s, [CallEv.is_alive])
  | .ok true =>
    let r := update_data_rest o is_admin now s
    (.ok r.1, r.2.1, CallEv.is_alive :: r.2.2)
  | .ok false =>
    let rec_r := async_reconnect o.reconnect_calls
    if rec_r.1 then
      let r := update_data_rest o is_admin now s
      (.ok r.1, r.2.1, (CallEv.is_alive :: rec_r.2) ++ r.2.2)
    else
      (.error (), s, CallEv.is_alive :: rec_r.2)

/-- `get_door_by_id` (coordinator.py lines 202-207): linear search of the
static door list, `none` when no door has the id. -/
def get_door_by_id (doors : List Door) (door_id : Int) : Option Door :=
  match doors with
  | [] => none
  | d :: rest => if d.id = door_id then some d else get_door_by_id rest door_id

/-- The target-to-action mapping of `async_execute_door_action`
(coordinator.py lines 164-168): target OPEN gives action OPEN, any other
target gives action CLOSE. -/
def target_to_action (target_state : DoorStatusType) : DoorActionType :=
  if target_state = DoorStatusType.OPEN then DoorActionType.OPEN
  else DoorActionType.CLOSE

/-- The door display name computed by `async_execute_door_action`
(coordinator.py lines 170-171), used only in log messages: the door name when
the id is known, else the fallback string "ID <door_id>". -/
def door_log_name (doors : List Door) (door_id : Int) : String :=
  match get_door_by_id doors door_id with
  | some d => d.name
  | none => "ID " ++ toString door_id

/-- Oracle for one `async_execute_door_action` execution: the first
`async_door_action` call, the reconnection attempt's calls, the retry
`async_door_action` call, and the `async_wait_for_door_state` call.  The
final forced `async_refresh` is a Home Assistant framework call that catches
all update errors internally, so it has no failure outcome and is modelled
purely as the `refresh` event. -/
structure ActionOracle where
  action1 : Except Unit Bool
  reconnect_calls : ReconnectOracle
  action2 : Except Unit Bool
  wait : Except Unit Unit

/-- Tail of `async_execute_door_action` after a successful send
(coordinator.py lines 183-191): wait for the door to reach the target state,
then force one immediate refresh and return true; an exception from the wait
is caught by the surrounding handler and yields false. -/
def action_after_send (o : ActionOracle) (door_id : Int) (target_state : DoorStatusType)
    (evs : List CallEv) : Bool × List CallEv :=
  match o.wait with
  | .error _ => (false, evs ++ [CallEv.wait_for_door_state door_id target_state])
  | .ok _ =>
    (true, evs ++ [CallEv.wait_for_door_state door_id target_state, CallEv.refresh])

/-- `async_execute_door_action` (coordinator.py lines 160-200): send the
action; on a false result reconnect once and, only if reconnection succeeded,
retry the send exactly once; then wait for the target state and force one
refresh.  Every exception anywhere in the try block is caught and converted
to false, so the operation is a total function into Bool. -/
def async_execute_door_action (o : ActionOracle) (door_id : Int)
    (target_state : DoorStatusType) : Bool × List CallEv :=
  let action := target_to_action target_state
  match o.action1 with
  | .error _ => (false, [CallEv.door_action door_id action])
  | .ok true => action_after_send o door_id target_state [CallEv.door_action door_id action]
  | .ok false =>
    let rec_r := async_reconnect o.reconnect_calls
    if rec_r.1 then
      match o.action2 with
      | .error _ =>
        (false, (CallEv.door_action door_id action :: rec_r.2)
                  ++ [CallEv.door_action door_id action])
      | .ok false =>
        (false, (CallEv.door_action door_id action :: rec_r.2)
                  ++ [CallEv.door_action door_id action])
      | .ok true =>
        action_after_send o door_id target_state
          ((CallEv.door_action door_id action :: rec_r.2)
            ++ [CallEv.door_action door_id action])
    else (false, CallEv.door_action door_id action :: rec_r.2)

/-- Whether a call event is a `door_action` send. -/
def is_door_action_ev : CallEv → Bool
  | .door_action _ _ => true
  | _ => false

/-- Number of `door_action` sends in a call log. -/
def door_action_count (evs : List CallEv) : Nat :=
  (evs.filter is_door_action_ev).length

/-- Whether a call event is a forced refresh. -/
def is_refresh_ev : CallEv → Bool
  | .refresh => true
  | _ => false

/-- Number of forced refreshes in a call log. -/
def refresh_count (evs : List CallEv) : Nat :=
  (evs.filter is_refresh_ev).length

/-- Whether the first send succeeded, or the first send returned false and
the reconnect-then-retry path succeeded — the exact condition under which
`async_execute_door_action` reaches its wait step. -/
def send_succeeded (o : ActionOracle) : Prop :=
  o.action1 = .ok true ∨
    (o.action1 = .ok false ∧ (async_reconnect o.reconnect_calls).1 = true ∧
      o.action2 = .ok true)

instance (o : ActionOracle) : Decidable (send_succeeded o) := by
  unfold send_succeeded
  infer_instance

/-- The coordinator state built by `__init__` together with the door-list
fetch of `async_setup` (coordinator.py lines 52-56 and 61): the discovered
doors, no device info, no firmware update, no firmware check yet. -/
def initial_state (doors : List Door) : CoordState :=
  { doors := doors,
    device_info := none,
    firmware_update_available := false,
    last_firmware_check := none }

/-- `async_setup` (coordinator.py lines 58-69): store the static door list;
when the client is admin, run one firmware refresh; then run the first poll
cycle (`async_config_entry_first_refresh` invokes `_async_update_data`; its
failure surfaces as a not-ready condition, modelled as `.error`). -/
def async_setup (doors : List Door) (is_admin : Bool) (fw0 : FirmwareOracle)
    (o : CycleOracle) (now : Int) :
    Except Unit SomwebData × CoordState × List CallEv :=
  let s0 := initial_state doors
  let fwr := if is_admin then async_update_firmware_info fw0 now s0 else (s0, [])
  let r := async_update_data o is_admin now fwr.1
  (r.1, r.2.1, fwr.2 ++ r.2.2)

/-- A sequence of scheduled poll cycles, each with its own oracle and wall
clock instant, run in order while threading the coordinator state; returns
the final state, the outcome of every cycle, and the concatenated call log. -/
def run_cycles (is_admin : Bool) :
    List (CycleOracle × Int) → CoordState →
      CoordState × List (Except Unit SomwebData) × List CallEv
  | [], s => (s, [], [])
  | c :: rest, s =>
    let r := async_update_data c.1 is_admin c.2 s
    let t := run_cycles is_admin rest r.2.1
    (t.1, r.1 :: t.2.1, r.2.2 ++ t.2.2)

/-! ### Helper lemmas -/

theorem poll_door_statuses_fst (o : CycleOracle) (ds : List Door) :
    (poll_door_statuses o ds).1 = ds.map fun d => (d.id, queried_status o d.id) := by
  induction ds with
  | nil => rfl
  | cons d rest ih => simp [poll_door_statuses, ih]

theorem lookup_status_map (o : CycleOracle) (id : Int) :
    ∀ ds : List Door, (∃ d ∈ ds, d.id = id) →
      lookup_status (ds.map fun d => (d.id, queried_status o d.id)) id
        = some (queried_status o id)
  | [], h => by simp at h
  | d :: rest, h => by
    by_cases hd : d.id = id
    · simp [lookup_status, hd]
    · have hrest : ∃ e ∈ rest, e.id = id := by
        obtain ⟨e, he, heid⟩ := h
        rcases List.mem_cons.mp he with rfl | hmem
        · exact absurd heid hd
        · exact ⟨e, hmem, heid⟩
      simp [lookup_status, hd, lookup_status_map o id rest hrest]

theorem update_data_rest_doors (o : CycleOracle) (is_admin : Bool) (now : Int)
    (s : CoordState) :
    (update_data_rest o is_admin now s).1.doors
      = s.doors.map fun d => (d.id, queried_status o d.id) := by
  simp [update_data_rest, poll_door_statuses_fst]

theorem async_update_data_ok_of_alive (o : CycleOracle) (is_admin : Bool) (now : Int)
    (s : CoordState) (halive : o.alive = .ok true) :
    (async_update_data o is_admin now s).1
      = .ok (update_data_rest o is_admin now s).1 := by
  simp [async_update_data, halive]

theorem async_reconnect_log (ro : ReconnectOracle) :
    (async_reconnect ro).2 = [CallEv.is_alive] ∨
      (async_reconnect ro).2 = [CallEv.is_alive, CallEv.authenticate] := by
  rcases ha : ro.alive with e | b
  · exact Or.inl (by simp [async_reconnect, ha])
  · cases b
    · exact Or.inl (by simp [async_reconnect, ha])
    · rcases hu : ro.auth with e | s
      · exact Or.inr (by simp [async_reconnect, ha, hu])
      · exact Or.inr (by simp [async_reconnect, ha, hu])

theorem reconnect_filter_door_action (ro : ReconnectOracle) :
    (async_reconnect ro).2.filter is_door_action_ev = [] := by
  rcases async_reconnect_log ro with h | h <;> rw [h] <;> decide

theorem reconnect_filter_refresh (ro : ReconnectOracle) :
    (async_reconnect ro).2.filter is_refresh_ev = [] := by
  rcases async_reconnect_log ro with h | h <;> rw [h] <;> decide

theorem reconnect_log_no_device_info (ro : ReconnectOracle) :
    CallEv.get_device_info ∉ (async_reconnect ro).2 := by
  rcases async_reconnect_log ro with h | h <;> rw [h] <;> simp

theorem poll_log_no_device_info (o : CycleOracle) (ds : List Door) :
    CallEv.get_device_info ∉ (poll_door_statuses o ds).2 := by
  induction ds with
  | nil => simp [poll_door_statuses]
  | cons d rest ih => simp [poll_door_statuses, ih]

theorem firmware_log_has_device_info (fo : FirmwareOracle) (now : Int) (s : CoordState) :
    CallEv.get_device_info ∈ (async_update_firmware_info fo now s).2 := by
  rcases h1 : fo.dev_info with e | di
  · simp [async_update_firmware_info, h1]
  · rcases h2 : fo.upd_avail with e | b <;>
      simp [async_update_firmware_info, h1, h2]

/-! ### Demo fixtures shared by the witnesses -/

def door_main : Door := ⟨1, "Main"⟩

def door_side : Door := ⟨2, "Side"⟩

def demo_doors : List Door := [door_main, door_side]

def demo_reconnect_ok : ReconnectOracle := ⟨Except.ok true, Except.ok true⟩

def demo_fw_fail : FirmwareOracle := ⟨Except.error (), Except.error ()⟩

def demo_status_fail2 : Int → Except Unit DoorStatusType :=
  fun id => if id = 2 then Except.error () else Except.ok DoorStatusType.OPEN

def demo_cycle_o : CycleOracle :=
  ⟨Except.ok true, demo_reconnect_ok, demo_status_fail2, demo_fw_fail⟩

/-- A state whose last successful firmware check happened at time 0. -/
def demo_state_checked : CoordState :=
  { doors := demo_doors, device_info := none,
    firmware_update_available := false, last_firmware_check := some 0 }

/-- The spec's action scenario: first send returns false, reconnection
succeeds, retry returns true, wait returns normally. -/
def demo_action_o : ActionOracle :=
  ⟨Except.ok false, demo_reconnect_ok, Except.ok true, Except.ok ()⟩

/-- First send returns false, reconnection succeeds, retry returns false. -/
def demo_action_fail : ActionOracle :=
  ⟨Except.ok false, demo_reconnect_ok, Except.ok false, Except.ok ()⟩

/-! ### Claims -/

/-- C1: during one poll cycle over the discovered door list, if the status
query for door k raises and the queries for all other doors succeed, the
cycle completes (the failure does not abort it) and the returned SomwebData
maps door k to UNKNOWN and every other discovered door to its queried
status. -/
theorem per_door_failure_isolated (o : CycleOracle) (is_admin : Bool) (now : Int)
    (s : CoordState) (k : Int) (f : Int → DoorStatusType)
    (halive : o.alive = .ok true)
    (hk : o.door_status k = .error ())
    (hothers : ∀ id, id ≠ k → o.door_status id = .ok (f id))
    (hkdoor : ∃ d ∈ s.doors, d.id = k) :
    ∃ data : SomwebData,
      (async_update_data o is_admin now s).1 = .ok data ∧
      lookup_status data.doors k = some DoorStatusType.UNKNOWN ∧
      ∀ d ∈ s.doors, d.id ≠ k → lookup_status data.doors d.id = some (f d.id) := by
  refine ⟨(update_data_rest o is_admin now s).1,
    async_update_data_ok_of_alive o is_admin now s halive, ?_, ?_⟩
  · rw [update_data_rest_doors, lookup_status_map o k s.doors hkdoor]
    simp [queried_status, hk]
  · intro d hd hne
    rw [update_data_rest_doors, lookup_status_map o d.id s.doors ⟨d, hd, rfl⟩]
    simp [queried_status, hothers d.id hne]

/-- Witness for C1 at the spec's scenario: doors Main (id 1) and Side (id 2),
door 2's query raises, door 1's returns OPEN. -/
theorem per_door_failure_isolated_witness :
    ∃ data : SomwebData,
      (async_update_data demo_cycle_o false 0 (initial_state demo_doors)).1
        = .ok data ∧
      lookup_status data.doors 2 = some DoorStatusType.UNKNOWN ∧
      ∀ d ∈ (initial_state demo_doors).doors, d.id ≠ 2 →
        lookup_status data.doors d.id = some DoorStatusType.OPEN :=
  per_door_failure_isolated demo_cycle_o false 0 (initial_state demo_doors) 2
    (fun _ => DoorStatusType.OPEN) rfl
    (by simp [demo_cycle_o, demo_status_fail2])
    (fun id h => by simp [demo_cycle_o, demo_status_fail2, h])
    ⟨door_side, by simp [initial_state, demo_doors], rfl⟩

/-- C2: in `async_execute_door_action`, when the first send returns false and
the reconnection succeeds, exactly one retry send is attempted (two sends in
total) and a failing retry yields failure with no third send; when the
reconnection fails, the operation fails with no retry (one send in total). -/
theorem action_retry_once (o : ActionOracle) (door_id : Int) (target : DoorStatusType)
    (h1 : o.action1 = .ok false) :
    ((async_reconnect o.reconnect_calls).1 = true →
      door_action_count (async_execute_door_action o door_id target).2 = 2 ∧
      ((o.action2 = .ok false ∨ o.action2 = .error ()) →
        (async_execute_door_action o door_id target).1 = false)) ∧
    ((async_reconnect o.reconnect_calls).1 = false →
      (async_execute_door_action o door_id target).1 = false ∧
      door_action_count (async_execute_door_action o door_id target).2 = 1) := by
  constructor
  · intro hrec
    constructor
    · rcases h2 : o.action2 with e | b
      · simp [async_execute_door_action, h1, hrec, h2, door_action_count,
          List.filter_append, is_door_action_ev, reconnect_filter_door_action]
      · cases b
        · simp [async_execute_door_action, h1, hrec, h2, door_action_count,
            List.filter_append, is_door_action_ev, reconnect_filter_door_action]
        · rcases hw : o.wait with e | u <;>
            simp [async_execute_door_action, action_after_send, h1, hrec, h2, hw,
              door_action_count, List.filter_append, is_door_action_ev,
              reconnect_filter_door_action]
    · rintro (h2 | h2) <;> simp [async_execute_door_action, h1, hrec, h2]
  · intro hrec
    simp [async_execute_door_action, h1, hrec, door_action_count,
      List.filter_append, is_door_action_ev, reconnect_filter_door_action]

/-- Witness for C2: first send false, reconnection succeeds, retry returns
false — two sends, result false. -/
theorem action_retry_once_witness :
    door_action_count (async_execute_door_action demo_action_fail 1
        DoorStatusType.CLOSED).2 = 2 ∧
      (async_execute_door_action demo_action_fail 1 DoorStatusType.CLOSED).1 = false :=
  ⟨((action_retry_once demo_action_fail 1 DoorStatusType.CLOSED rfl).1 (by decide)).1,
   ((action_retry_once demo_action_fail 1 DoorStatusType.CLOSED rfl).1 (by decide)).2
     (Or.inl rfl)⟩

/-- C9: the door-action operation is a total function into Bool (every
exception of send, reconnect, retry or wait is caught and converted to a
boolean failure); it returns true exactly when a send succeeded — on the
first attempt or on the single retry — and the wait returned normally, and
on that success path the call log contains exactly one forced refresh. -/
theorem execute_door_action_result (o : ActionOracle) (door_id : Int)
    (target : DoorStatusType) :
    ((async_execute_door_action o door_id target).1 = true ↔
      (send_succeeded o ∧ o.wait = .ok ())) ∧
    ((async_execute_door_action o door_id target).1 = true →
      refresh_count (async_execute_door_action o door_id target).2 = 1) := by
  rcases h1 : o.action1 with e | b
  · cases e
    constructor
    · simp [async_execute_door_action, h1, send_succeeded]
    · simp [async_execute_door_action, h1]
  · cases b
    · cases hrec : (async_reconnect o.reconnect_calls).1
      · constructor
        · simp [async_execute_door_action, h1, hrec, send_succeeded]
        · simp [async_execute_door_action, h1, hrec]
      · rcases h2 : o.action2 with e | b2
        · cases e
          constructor
          · simp [async_execute_door_action, h1, hrec, h2, send_succeeded]
          · simp [async_execute_door_action, h1, hrec, h2]
        · cases b2
          · constructor
            · simp [async_execute_door_action, h1, hrec, h2, send_succeeded]
            · simp [async_execute_door_action, h1, hrec, h2]
          · rcases hw : o.wait with e | u
            · cases e
              constructor
              · simp [async_execute_door_action, action_after_send, h1, hrec, h2,
                  hw, send_succeeded]
              · simp [async_execute_door_action, action_after_send, h1, hrec, h2, hw]
            · cases u
              constructor
              · simp [async_execute_door_action, action_after_send, h1, hrec, h2,
                  hw, send_succeeded]
              · intro _
                simp [async_execute_door_action, action_after_send, h1, hrec, h2,
                  hw, refresh_count, List.filter_append, is_refresh_ev,
                  reconnect_filter_refresh]
    · rcases hw : o.wait with e | u
      · cases e
        constructor
        · simp [async_execute_door_action, action_after_send, h1, hw, send_succeeded]
        · simp [async_execute_door_action, action_after_send, h1, hw]
      · cases u
        constructor
        · simp [async_execute_door_action, action_after_send, h1, hw, send_succeeded]
        · intro _
          simp [async_execute_door_action, action_after_send, h1, hw, refresh_count,
            List.filter_append, is_refresh_ev]

/-- Witness for C9 at the spec's scenario (first send false, reconnect ok,
retry true, wait ok): the operation returns true and forces one refresh. -/
theorem execute_door_action_result_witness :
    (async_execute_door_action demo_action_o 1 DoorStatusType.CLOSED).1 = true ∧
    refresh_count (async_execute_door_action demo_action_o 1
      DoorStatusType.CLOSED).2 = 1 :=
  ⟨(execute_door_action_result demo_action_o 1 DoorStatusType.CLOSED).1.mpr
     (by constructor
         · exact Or.inr ⟨rfl, by decide, rfl⟩
         · rfl),
   (execute_door_action_result demo_action_o 1 DoorStatusType.CLOSED).2 (by decide)⟩

/-- C3: a poll cycle whose liveness check returns false and whose
reconnection attempt fails raises the retryable update failure instead of
returning a snapshot, and leaves every coordinator-held field (door list,
device info, firmware flag, last firmware check) exactly as it was. -/
theorem cycle_failure_leaves_state (o : CycleOracle) (is_admin : Bool) (now : Int)
    (s : CoordState)
    (halive : o.alive = .ok false)
    (hrec : (async_reconnect o.reconnect_calls).1 = false) :
    (async_update_data o is_admin now s).1 = .error () ∧
    (async_update_data o is_admin now s).2.1 = s := by
  constructor <;> simp [async_update_data, halive, hrec]

/-- Witness for C3: dead device, reconnection liveness also false. -/
theorem cycle_failure_leaves_state_witness :
    (async_update_data ⟨Except.ok false, ⟨Except.ok false, Except.ok true⟩,
        demo_status_fail2, demo_fw_fail⟩ true 0 (initial_state demo_doors)).1
      = .error () ∧
    (async_update_data ⟨Except.ok false, ⟨Except.ok false, Except.ok true⟩,
        demo_status_fail2, demo_fw_fail⟩ true 0 (initial_state demo_doors)).2.1
      = initial_state demo_doors :=
  cycle_failure_leaves_state _ true 0 (initial_state demo_doors) rfl (by decide)

/-- C4: the reconnection protocol never calls authenticate when the liveness
check returns false (its call log is just the liveness call) and fails;
it succeeds exactly when liveness returned true and authentication reported
success; and an exception in either call yields failure instead of
propagating — the liveness exception without an authenticate call. -/
theorem reconnect_protocol (ro : ReconnectOracle) :
    (ro.alive = .ok false → async_reconnect ro = (false, [CallEv.is_alive])) ∧
    ((async_reconnect ro).1 = true ↔ (ro.alive = .ok true ∧ ro.auth = .ok true)) ∧
    (ro.alive = .error () → async_reconnect ro = (false, [CallEv.is_alive])) ∧
    (ro.alive = .ok true → ro.auth = .error () →
      async_reconnect ro = (false, [CallEv.is_alive, CallEv.authenticate])) := by
  refine ⟨?_, ?_, ?_, ?_⟩
  · intro h; simp [async_reconnect, h]
  · rcases ha : ro.alive with e | b
    · simp [async_reconnect, ha]
    · cases b
      · simp [async_reconnect, ha]
      · rcases hu : ro.auth with e | s
        · simp [async_reconnect, ha, hu]
        · cases s <;> simp [async_reconnect, ha, hu]
  · intro h; simp [async_reconnect, h]
  · intro h1 h2; simp [async_reconnect, h1, h2]

/-- Witness for C4: liveness false — failure, authenticate never called. -/
theorem reconnect_protocol_witness :
    async_reconnect ⟨Except.ok false, Except.ok true⟩ = (false, [CallEv.is_alive]) :=
  (reconnect_protocol ⟨Except.ok false, Except.ok true⟩).1 rfl

theorem cycle_not_due (o : CycleOracle) (is_admin : Bool) (now : Int) (s : CoordState)
    (h : should_check_firmware now s = false) :
    CallEv.get_device_info ∉ (async_update_data o is_admin now s).2.2 ∧
    (async_update_data o is_admin now s).2.1 = s := by
  have hrest1 : (update_data_rest o is_admin now s).2.1 = s := by
    simp [update_data_rest, h]
  have hrest2 : CallEv.get_device_info ∉ (update_data_rest o is_admin now s).2.2 := by
    simp [update_data_rest, h]
    exact poll_log_no_device_info o s.doors
  rcases ha : o.alive with e | b
  · simp [async_update_data, ha]
  · cases b
    · cases hrec : (async_reconnect o.reconnect_calls).1
      · constructor
        · simp [async_update_data, ha, hrec]
          exact reconnect_log_no_device_info o.reconnect_calls
        · simp [async_update_data, ha, hrec]
      · constructor
        · simp [async_update_data, ha, hrec]
          exact ⟨reconnect_log_no_device_info o.reconnect_calls, hrest2⟩
        · simp [async_update_data, ha, hrec, hrest1]
    · constructor
      · simp [async_update_data, ha]
        exact hrest2
      · simp [async_update_data, ha, hrest1]

/-- C5: the firmware throttle.  (i) If the last successful firmware refresh
was at time T, no poll cycle run at a time strictly before T plus the
configured firmware-check interval attempts a device-info refresh, however
many cycles run, and the coordinator state is untouched; (ii) an admin poll
cycle at or after T plus the interval whose liveness check succeeds does
attempt the refresh; (iii) a coordinator that never had a successful refresh
counts as due: an admin cycle with liveness attempts the refresh at any
time. -/
theorem firmware_throttle :
    (∀ (is_admin : Bool) (T : Int) (cycles : List (CycleOracle × Int)) (s : CoordState),
        s.last_firmware_check = some T →
        (∀ c ∈ cycles, c.2 - T < firmware_check_interval) →
        CallEv.get_device_info ∉ (run_cycles is_admin cycles s).2.2 ∧
        (run_cycles is_admin cycles s).1 = s) ∧
    (∀ (o : CycleOracle) (T now : Int) (s : CoordState),
        s.last_firmware_check = some T →
        firmware_check_interval ≤ now - T →
        o.alive = .ok true →
        CallEv.get_device_info ∈ (async_update_data o true now s).2.2) ∧
    (∀ (o : CycleOracle) (now : Int) (s : CoordState),
        s.last_firmware_check = none →
        o.alive = .ok true →
        CallEv.get_device_info ∈ (async_update_data o true now s).2.2) := by
  refine ⟨?_, ?_, ?_⟩
  · intro a T cycles
    induction cycles with
    | nil => intro s _ _; simp [run_cycles]
    | cons c rest ih =>
      intro s hs hlt
      have hdue : should_check_firmware c.2 s = false := by
        simp [should_check_firmware, hs]
        exact hlt c (List.mem_cons_self c rest)
      have h1 := cycle_not_due c.1 a c.2 s hdue
      have h2 := ih s hs (fun c2 hc2 => hlt c2 (List.mem_cons_of_mem c hc2))
      constructor
      · simp [run_cycles, h1.2]
        exact ⟨h1.1, h2.1⟩
      · simp [run_cycles, h1.2, h2.2]
  · intro o T now s hs hge halive
    have hdue : should_check_firmware now s = true := by
      simp [should_check_firmware, hs]
      exact hge
    simp [async_update_data, halive, update_data_rest, hdue]
    exact Or.inr (firmware_log_has_device_info o.fw now s)
  · intro o now s hs halive
    have hdue : should_check_firmware now s = true := by
      simp [should_check_firmware, hs]
    simp [async_update_data, halive, update_data_rest, hdue]
    exact Or.inr (firmware_log_has_device_info o.fw now s)

/-- Witness for C5: with the last check at time 0, a cycle at time 100 never
queries device info; a cycle at time 43200 (12 hours later) does; a
coordinator with no successful check yet queries immediately. -/
theorem firmware_throttle_witness :
    CallEv.get_device_info ∉
        (run_cycles true [(demo_cycle_o, 100)] demo_state_checked).2.2 ∧
    CallEv.get_device_info ∈ (async_update_data demo_cycle_o true 43200
        demo_state_checked).2.2 ∧
    CallEv.get_device_info ∈ (async_update_data demo_cycle_o true 0
        (initial_state demo_doors)).2.2 :=
  ⟨(firmware_throttle.1 true 0 [(demo_cycle_o, 100)] demo_state_checked rfl
      (by intro c hc; simp at hc; subst hc; decide)).1,
   firmware_throttle.2.1 demo_cycle_o 0 43200 demo_state_checked rfl (by decide) rfl,
   firmware_throttle.2.2 demo_cycle_o 0 (initial_state demo_doors) rfl rfl⟩

def demo_dev_info : DeviceInfo :=
  ⟨"2.0", "UDI-1", 4, -50, "10.0.0.2", "UTC", true⟩

/-- Device-info query succeeds but the update-availability query raises. -/
def demo_fw_partial : FirmwareOracle := ⟨Except.ok demo_dev_info, Except.error ()⟩

/-- C6 counterexample: a firmware refresh whose device-info query succeeds
and whose update-availability query then raises is a failed refresh, yet it
replaces the held device_info — the held values are not all left unchanged
on this failure, contradicting the claim as stated. -/
theorem firmware_partial_update_counterexample :
    demo_fw_partial.upd_avail = Except.error () ∧
    (async_update_firmware_info demo_fw_partial 0
        (initial_state demo_doors)).1.device_info
      ≠ (initial_state demo_doors).device_info ∧
    (async_update_firmware_info demo_fw_partial 0
        (initial_state demo_doors)).1.device_info = some demo_dev_info := by
  refine ⟨rfl, ?_, rfl⟩
  simp [async_update_firmware_info, demo_fw_partial, initial_state]

/-- C6 amended: the firmware/device-info refresh replaces all held values and
records the timestamp only when the whole refresh succeeds; on any failure
the firmware flag and the last-check timestamp are unchanged and the failure
is swallowed (the refresh is a total function, and a poll cycle that reaches
it still publishes a snapshot); device_info is also unchanged when the
device-info query itself fails, but when the device-info query succeeds and
the update-availability query then fails, device_info alone is replaced. -/
theorem firmware_refresh_behavior (fo : FirmwareOracle) (now : Int) (s : CoordState) :
    (fo.dev_info = .error () → (async_update_firmware_info fo now s).1 = s) ∧
    (∀ di, fo.dev_info = .ok di → fo.upd_avail = .error () →
      (async_update_firmware_info fo now s).1 = { s with device_info := some di }) ∧
    (∀ di b, fo.dev_info = .ok di → fo.upd_avail = .ok b →
      (async_update_firmware_info fo now s).1
        = { s with device_info := some di,
                   firmware_update_available := b,
                   last_firmware_check := some now }) ∧
    (∀ (o : CycleOracle) (is_admin : Bool), o.alive = .ok true →
      (async_update_data o is_admin now s).1
        = .ok (update_data_rest o is_admin now s).1) := by
  refine ⟨?_, ?_, ?_, ?_⟩
  · intro h; simp [async_update_firmware_info, h]
  · intro di h1 h2; simp [async_update_firmware_info, h1, h2]
  · intro di b h1 h2; simp [async_update_firmware_info, h1, h2]
  · intro o is_admin halive
    exact async_update_data_ok_of_alive o is_admin now s halive

/-- Witness for the amended C6 at the counterexample input: the flag and the
timestamp are kept, device_info alone is replaced. -/
theorem firmware_refresh_behavior_witness :
    (async_update_firmware_info demo_fw_partial 0 (initial_state demo_doors)).1
      = { initial_state demo_doors with device_info := some demo_dev_info } :=
  (firmware_refresh_behavior demo_fw_partial 0 (initial_state demo_doors)).2.1
    demo_dev_info rfl rfl

theorem cycle_not_admin (o : CycleOracle) (now : Int) (s : CoordState) :
    (async_update_data o false now s).2.1 = s ∧
    CallEv.get_device_info ∉ (async_update_data o false now s).2.2 ∧
    ∀ data, (async_update_data o false now s).1 = .ok data →
      data.device_info = s.device_info ∧
      data.firmware_update_available = s.firmware_update_available := by
  have hrest1 : (update_data_rest o false now s).2.1 = s := by
    simp [update_data_rest]
  have hrest2 : CallEv.get_device_info ∉ (update_data_rest o false now s).2.2 := by
    simp [update_data_rest]
    exact poll_log_no_device_info o s.doors
  have hrest3 : (update_data_rest o false now s).1.device_info = s.device_info ∧
      (update_data_rest o false now s).1.firmware_update_available
        = s.firmware_update_available := by
    constructor <;> simp [update_data_rest]
  rcases ha : o.alive with e | b
  · refine ⟨by simp [async_update_data, ha], by simp [async_update_data, ha], ?_⟩
    intro data hd
    simp [async_update_data, ha] at hd
  · cases b
    · cases hrec : (async_reconnect o.reconnect_calls).1
      · refine ⟨by simp [async_update_data, ha, hrec], ?_, ?_⟩
        · simp [async_update_data, ha, hrec]
          exact reconnect_log_no_device_info o.reconnect_calls
        · intro data hd
          simp [async_update_data, ha, hrec] at hd
      · refine ⟨by simp [async_update_data, ha, hrec, hrest1], ?_, ?_⟩
        · simp [async_update_data, ha, hrec]
          exact ⟨reconnect_log_no_device_info o.reconnect_calls, hrest2⟩
        · intro data hd
          simp [async_update_data, ha, hrec] at hd
          rw [← hd]
          exact hrest3
    · refine ⟨by simp [async_update_data, ha, hrest1], ?_, ?_⟩
      · simp [async_update_data, ha]
        exact hrest2
      · intro data hd
        simp [async_update_data, ha] at hd
        rw [← hd]
        exact hrest3

theorem run_cycles_not_admin (cycles : List (CycleOracle × Int)) :
    ∀ s : CoordState,
      (run_cycles false cycles s).1 = s ∧
      CallEv.get_device_info ∉ (run_cycles false cycles s).2.2 ∧
      ∀ r ∈ (run_cycles false cycles s).2.1, ∀ data, r = .ok data →
        data.device_info = s.device_info ∧
        data.firmware_update_available = s.firmware_update_available := by
  induction cycles with
  | nil => intro s; simp [run_cycles]
  | cons c rest ih =>
    intro s
    have h1 := cycle_not_admin c.1 c.2 s
    have h2 := ih s
    refine ⟨?_, ?_, ?_⟩
    · simp [run_cycles, h1.1, h2.1]
    · simp [run_cycles, h1.1]
      exact ⟨h1.2.1, h2.2.1⟩
    · intro r hr data hd
      simp [run_cycles, h1.1] at hr
      rcases hr with hr | hr
      · exact h1.2.2 data (hr ▸ hd)
      · exact h2.2.2 r hr data hd

/-- C7: for a coordinator whose client is not admin, the firmware/device-info
refresh is never attempted — not at setup and in no later poll cycle, at any
time — so the setup snapshot and every later published snapshot have
device_info = none and firmware_update_available = false, and so does the
coordinator state after any number of cycles. -/
theorem non_admin_no_firmware (doors : List Door) (fw0 : FirmwareOracle)
    (o0 : CycleOracle) (t0 : Int) (cycles : List (CycleOracle × Int)) :
    CallEv.get_device_info ∉ (async_setup doors false fw0 o0 t0).2.2 ∧
    (∀ data, (async_setup doors false fw0 o0 t0).1 = .ok data →
      data.device_info = none ∧ data.firmware_update_available = false) ∧
    CallEv.get_device_info ∉
      (run_cycles false cycles (async_setup doors false fw0 o0 t0).2.1).2.2 ∧
    (run_cycles false cycles (async_setup doors false fw0 o0 t0).2.1).1.device_info
      = none ∧
    (run_cycles false cycles
        (async_setup doors false fw0 o0 t0).2.1).1.firmware_update_available
      = false ∧
    ∀ r ∈ (run_cycles false cycles (async_setup doors false fw0 o0 t0).2.1).2.1,
      ∀ data, r = .ok data →
        data.device_info = none ∧ data.firmware_update_available = false := by
  have hc := cycle_not_admin o0 t0 (initial_state doors)
  have hsetup_state : (async_setup doors false fw0 o0 t0).2.1 = initial_state doors := by
    simp [async_setup, hc.1]
  have hsetup_log : (async_setup doors false fw0 o0 t0).2.2
      = (async_update_data o0 false t0 (initial_state doors)).2.2 := by
    simp [async_setup]
  have hsetup_res : (async_setup doors false fw0 o0 t0).1
      = (async_update_data o0 false t0 (initial_state doors)).1 := by
    simp [async_setup]
  have hrun := run_cycles_not_admin cycles (initial_state doors)
  refine ⟨?_, ?_, ?_, ?_, ?_, ?_⟩
  · rw [hsetup_log]
    exact hc.2.1
  · intro data hd
    have := hc.2.2 data (by rw [← hsetup_res]; exact hd)
    simpa [initial_state] using this
  · rw [hsetup_state]
    exact hrun.2.1
  · rw [hsetup_state, hrun.1]
    rfl
  · rw [hsetup_state, hrun.1]
    rfl
  · rw [hsetup_state]
    intro r hr data hd
    have := hrun.2.2 r hr data hd
    simpa [initial_state] using this

/-- Witness for C7: non-admin setup performs no device-info call, and after
one more cycle the state's device_info is still none. -/
theorem non_admin_no_firmware_witness :
    CallEv.get_device_info ∉
      (async_setup demo_doors false demo_fw_partial demo_cycle_o 0).2.2 ∧
    (run_cycles false [(demo_cycle_o, 30)]
        (async_setup demo_doors false demo_fw_partial demo_cycle_o 0).2.1).1.device_info
      = none :=
  ⟨(non_admin_no_firmware demo_doors demo_fw_partial demo_cycle_o 0
      [(demo_cycle_o, 30)]).1,
   (non_admin_no_firmware demo_doors demo_fw_partial demo_cycle_o 0
      [(demo_cycle_o, 30)]).2.2.2.1⟩

/-- C8: in every poll cycle that publishes a snapshot, a discovered door
whose status query raised this cycle is mapped to UNKNOWN — never to a live
value carried over from a prior poll — and a cycle whose session is
unreachable (liveness false, reconnection failed) publishes no snapshot at
all. -/
theorem unknown_on_failed_query (o : CycleOracle) (is_admin : Bool) (now : Int)
    (s : CoordState) :
    (∀ data, (async_update_data o is_admin now s).1 = .ok data →
      ∀ d ∈ s.doors, o.door_status d.id = .error () →
        lookup_status data.doors d.id = some DoorStatusType.UNKNOWN) ∧
    (o.alive = .ok false → (async_reconnect o.reconnect_calls).1 = false →
      (async_update_data o is_admin now s).1 = .error ()) := by
  constructor
  · intro data hd d hmem herr
    have hdata : data = (update_data_rest o is_admin now s).1 := by
      rcases ha : o.alive with e | b
      · simp [async_update_data, ha] at hd
      · cases b
        · cases hrec : (async_reconnect o.reconnect_calls).1
          · simp [async_update_data, ha, hrec] at hd
          · simp [async_update_data, ha, hrec] at hd
            exact hd.symm
        · simp [async_update_data, ha] at hd
          exact hd.symm
    rw [hdata, update_data_rest_doors, lookup_status_map o d.id s.doors ⟨d, hmem, rfl⟩]
    simp [queried_status, herr]
  · intro h1 h2
    simp [async_update_data, h1, h2]

/-- Witness for C8: in the two-door scenario the published snapshot maps the
failing door 2 to UNKNOWN. -/
theorem unknown_on_failed_query_witness :
    lookup_status (update_data_rest demo_cycle_o false 0
        (initial_state demo_doors)).1.doors 2 = some DoorStatusType.UNKNOWN :=
  (unknown_on_failed_query demo_cycle_o false 0 (initial_state demo_doors)).1
    (update_data_rest demo_cycle_o false 0 (initial_state demo_doors)).1
    rfl door_side (by simp [initial_state, demo_doors]) (by decide)

theorem get_door_by_id_none (door_id : Int) :
    ∀ doors : List Door, (∀ d ∈ doors, d.id ≠ door_id) →
      get_door_by_id doors door_id = none
  | [], _ => rfl
  | d :: rest, h => by
    have hd : d.id ≠ door_id := h d (List.mem_cons_self d rest)
    simp [get_door_by_id, hd]
    exact get_door_by_id_none door_id rest fun e he => h e (List.mem_cons_of_mem d he)

theorem execute_log_head (o : ActionOracle) (door_id : Int) (target : DoorStatusType) :
    (async_execute_door_action o door_id target).2.head?
      = some (CallEv.door_action door_id (target_to_action target)) := by
  rcases h1 : o.action1 with e | b
  · simp [async_execute_door_action, h1]
  · cases b
    · cases hrec : (async_reconnect o.reconnect_calls).1
      · simp [async_execute_door_action, h1, hrec]
      · rcases h2 : o.action2 with e | b2
        · simp [async_execute_door_action, h1, hrec, h2]
        · cases b2
          · simp [async_execute_door_action, h1, hrec, h2]
          · rcases hw : o.wait with e | u <;>
              simp [async_execute_door_action, action_after_send, h1, hrec, h2, hw]
    · rcases hw : o.wait with e | u <;>
        simp [async_execute_door_action, action_after_send, h1, hw]

/-- C10: for a door id that is not among the discovered doors,
`get_door_by_id` returns none and the log name falls back to "ID <id>", yet
the action execution imposes no existence precondition: its first client
call is still the `door_action` send for that id. -/
theorem unknown_door_still_sent (doors : List Door) (door_id : Int)
    (h : ∀ d ∈ doors, d.id ≠ door_id) :
    get_door_by_id doors door_id = none ∧
    door_log_name doors door_id = "ID " ++ toString door_id ∧
    ∀ (o : ActionOracle) (target : DoorStatusType),
      (async_execute_door_action o door_id target).2.head?
        = some (CallEv.door_action door_id (target_to_action target)) := by
  have hnone := get_door_by_id_none door_id doors h
  refine ⟨hnone, ?_, ?_⟩
  · simp [door_log_name, hnone]
  · intro o target
    exact execute_log_head o door_id target

/-- Witness for C10: door id 5 is not among Main (1) and Side (2). -/
theorem unknown_door_still_sent_witness :
    get_door_by_id demo_doors 5 = none ∧
    door_log_name demo_doors 5 = "ID " ++ toString (5 : Int) :=
  ⟨(unknown_door_still_sent demo_doors 5 (by decide)).1,
   (unknown_door_still_sent demo_doors 5 (by decide)).2.1⟩

end Somweb
